import Mathlib

/-!
Shallow embedding of the deep_research pipeline (source adapters, relevance
filter, source selector, analyzer, data models) and proofs about the
behaviours its specification claims.

External effects (HTTP calls to the language model, JSON parsing by the
Python standard library) are modelled as explicit parameters: a model call
becomes a value of type `Except String String` (exception message or reply
text), and `json.loads` becomes a function `String → Except Unit Json`
(decode error or parsed value).  Everything after those boundaries is
translated statement by statement from the Python source.
-/

set_option maxRecDepth 4096

/-! ## Python string primitives -/

/-- The whitespace characters removed by Python `str.strip()` (ASCII and the
C1 separators; further Unicode space code points are not modelled). -/
def pyIsSpace (c : Char) : Bool :=
  c = ' ' || c = '\t' || c = '\n' || c = '\r' || c = '\x0b' || c = '\x0c' ||
  c = '\x1c' || c = '\x1d' || c = '\x1e' || c = '\x1f' || c = '\x85' || c = '\xa0'

/-- Python `s.strip()`: drop leading and trailing whitespace. -/
def pyStrip (s : String) : String :=
  ⟨((s.data.dropWhile pyIsSpace).reverse.dropWhile pyIsSpace).reverse⟩

/-- Python `s.lstrip(chars)`: drop leading characters belonging to the set. -/
def pyLstrip (chars : List Char) (s : String) : String :=
  ⟨s.data.dropWhile (fun c => chars.contains c)⟩

/-- Is `needle` a leading segment of `hay`?  (Helper for substring search.) -/
def listIsPre : List Char → List Char → Bool
  | [], _ => true
  | _ :: _, [] => false
  | a :: as, b :: bs => a == b && listIsPre as bs

/-- Does `needle` occur somewhere in `hay`? (Helper for substring search.) -/
def strContainsAux (needle : List Char) : List Char → Bool
  | [] => needle.isEmpty
  | c :: cs => listIsPre needle (c :: cs) || strContainsAux needle cs

/-- Python `needle in hay` on strings: contiguous substring test. -/
def strContains (hay needle : String) : Bool :=
  strContainsAux needle.data hay.data

/-- Python `s.find(sub)`: index of the first occurrence, `-1` when absent. -/
def pyFindAux (needle : List Char) : List Char → Nat → Int
  | [], i => if needle.isEmpty then (i : Int) else -1
  | c :: cs, i => if listIsPre needle (c :: cs) then (i : Int) else pyFindAux needle cs (i + 1)

/-- Python `s.find(sub)`. -/
def pyFind (s sub : String) : Int :=
  pyFindAux sub.data s.data 0

/-- Python `s.rfind(sub)`: index of the last occurrence, `-1` when absent. -/
def pyRfind (s sub : String) : Int :=
  match ((List.range (s.data.length + 1)).filter
      (fun i => listIsPre sub.data (s.data.drop i))).getLast? with
  | some i => (i : Int)
  | none => -1

/-- Python slicing `s[a:b]` with possibly negative indices. -/
def pySlice (s : String) (a b : Int) : String :=
  let n : Int := (s.data.length : Int)
  let lo := (if a < 0 then max (n + a) 0 else min a n).toNat
  let hi := (if b < 0 then max (n + b) 0 else min b n).toNat
  ⟨(s.data.drop lo).take (hi - lo)⟩

/-- Python `s.lower()` (ASCII case mapping). -/
def pyLower (s : String) : String :=
  ⟨s.data.map Char.toLower⟩

/-- Python `s.startswith(p)`. -/
def pyStartsWith (s p : String) : Bool :=
  listIsPre p.data s.data

/-- Python `s.replace(old, new)` for a non-empty `old`: every non-overlapping
occurrence, left to right (fuel-based structural recursion, the fuel bounds
the number of characters scanned). -/
def pyReplaceAux (old new : List Char) : Nat → List Char → List Char
  | 0, l => l
  | _ + 1, [] => []
  | fuel + 1, c :: cs =>
    if listIsPre old (c :: cs) then new ++ pyReplaceAux old new fuel ((c :: cs).drop old.length)
    else c :: pyReplaceAux old new fuel cs

/-- Python `s.replace(old, new)`. -/
def pyReplace (s old new : String) : String :=
  ⟨pyReplaceAux old.data new.data (s.data.length + 1) s.data⟩

/-- Python `s.split(sep)` for a non-empty `sep`: empty pieces are kept. -/
def pySplitAux (sep : List Char) : Nat → List Char → List Char → List (List Char)
  | 0, acc, l => [acc.reverse ++ l]
  | _ + 1, acc, [] => [acc.reverse]
  | fuel + 1, acc, c :: cs =>
    if listIsPre sep (c :: cs) then
      acc.reverse :: pySplitAux sep fuel [] ((c :: cs).drop sep.length)
    else pySplitAux sep fuel (c :: acc) cs

/-- Python `s.split(sep)`. -/
def pySplit (s sep : String) : List String :=
  (pySplitAux sep.data (s.data.length + 1) [] s.data).map fun l => ⟨l⟩

/-- Python `sep.join(parts)`. -/
def pyJoin (sep : String) : List String → String
  | [] => ""
  | [x] => x
  | x :: y :: rest => x ++ sep ++ pyJoin sep (y :: rest)

/-! ## JSON values

Parsed JSON as produced by `json.loads`, together with the pieces of Python
dynamic-value behaviour (truthiness, dict access, iteration) that the
translated code relies on. -/

inductive Json where
  | null
  | bool (b : Bool)
  | num (n : Int)
  | str (s : String)
  | arr (elems : List Json)
  | obj (fields : List (String × Json))
deriving Repr

/-- Association-list lookup for JSON object fields (first binding wins, as in
a Python dict where keys are unique). -/
def jsonLookup (k : String) : List (String × Json) → Option Json
  | [] => none
  | (k', v) :: rest => if k' = k then some v else jsonLookup k rest

/-- Python `d.get(k, default)` on a parsed JSON value; calling `.get` on a
non-object raises `AttributeError`. -/
def Json.objGetD : Json → String → Json → Except String Json
  | .obj fields, k, d => .ok ((jsonLookup k fields).getD d)
  | _, _, _ => .error "AttributeError: object has no attribute get"

/-- Python truthiness of a JSON value. -/
def pyTruthy : Json → Bool
  | .null => false
  | .bool b => b
  | .num n => n ≠ 0
  | .str s => s ≠ ""
  | .arr l => !l.isEmpty
  | .obj l => !l.isEmpty

/-- Python iteration over a JSON value, as used by a list comprehension:
arrays yield elements, strings yield one-character strings, objects yield
their keys, and the remaining values raise `TypeError`. -/
def pyIter : Json → Except String (List Json)
  | .arr l => .ok l
  | .str s => .ok (s.data.map fun c => .str (String.singleton c))
  | .obj fields => .ok (fields.map fun kv => .str kv.1)
  | _ => .error "TypeError: object is not iterable"

/-! ## models.py -/

/-- `ResearchResult` (models.py): the canonical record every adapter emits. -/
structure ResearchResult where
  title : String
  abstract : String
  url : String
  published_date : String
  source : String
  authors : List String
deriving Repr, DecidableEq

/-- `ResearchQuery` (models.py). -/
structure ResearchQuery where
  topic : String
  search_query : Option String := none
  date_from : Option String := none
  date_to : Option String := none
  max_results : Int := 10
deriving Repr, DecidableEq

/-- pydantic validation run when a `ResearchQuery` is constructed:
`max_results : int = Field(10, ge=1, le=100)` rejects out-of-range values
with a `ValidationError`; nothing is clamped. -/
def ResearchQuery.validate (topic : String)
    (search_query date_from date_to : Option String) (max_results : Int) :
    Except String ResearchQuery :=
  if max_results < 1 then
    .error "ValidationError: max_results: Input should be greater than or equal to 1"
  else if 100 < max_results then
    .error "ValidationError: max_results: Input should be less than or equal to 100"
  else
    .ok ⟨topic, search_query, date_from, date_to, max_results⟩

/-! ## sources/openalex_source.py -/

namespace OpenalexSource

/-- One entry of a work's `authorships` array.  The source reads
`authorship.get("author", {})` and keeps the author only when that object is
truthy and its `display_name` is truthy, so an authorship is summarized by
its display name, `""` standing for a missing/empty author or name. -/
structure Authorship where
  display_name : String := ""
deriving Repr, DecidableEq

/-- The fields of an OpenAlex `work` record that `search_papers` reads.
`Option` marks fields fetched with a falsy-sensitive check; plain `String`
fields model `work.get(key, "")`. -/
structure Work where
  title : Option String := none
  authorships : List Authorship := []
  publication_date : String := ""
  publication_year : Option Int := none
  abstract_inverted_index : Option (List (String × List Int)) := none
  doi : String := ""
  id : String := ""
deriving Repr, DecidableEq

/-- Stable insertion into a list sorted by position (Python `list.sort` with
`key=lambda x: x[0]` is stable). -/
def insertByPos (x : Int × String) : List (Int × String) → List (Int × String)
  | [] => [x]
  | y :: ys => if x.1 ≤ y.1 then x :: y :: ys else y :: insertByPos x ys

/-- Stable sort by position. -/
def sortByPos (l : List (Int × String)) : List (Int × String) :=
  l.foldr insertByPos []

/-- `_extract_abstract`: rebuild a plain-text abstract from OpenAlex's
inverted-index encoding (`None`/`{}` give `""`). -/
def extract_abstract (inverted_index : Option (List (String × List Int))) : String :=
  match inverted_index with
  | none => ""
  | some idx =>
    if idx.isEmpty then ""
    else
      let word_positions :=
        idx.foldl (fun acc wp => acc ++ wp.2.map (fun pos => (pos, wp.1))) []
      let sorted := sortByPos word_positions
      pyJoin " " (sorted.map (fun x => x.2))

/-- The per-record loop of `search_papers` (openalex_source.py lines 61-103),
applied to the parsed `results` array of the provider response. -/
def search_papers_results (works : List Work) : List ResearchResult :=
  works.filterMap fun work =>
    -- Skip if no title
    if work.title.getD "" = "" then none
    else
      let authors := (work.authorships.take 10).filterMap fun a =>
        if a.display_name ≠ "" then some a.display_name else none
      let pub_date :=
        if work.publication_date ≠ "" then work.publication_date
        else
          -- Fallback to publication year if date not available
          match work.publication_year with
          | some y => if y ≠ 0 then toString y ++ "-01-01" else ""
          | none => ""
      let abstract :=
        let a := extract_abstract work.abstract_inverted_index
        if a = "" then "No abstract available" else a
      let url := if work.doi ≠ "" then work.doi else work.id
      some
        { title := work.title.getD ""
          abstract := pyStrip (pyReplace abstract "\n" " ")
          url := url
          published_date := pub_date
          source := "openalex"
          authors := authors }

end OpenalexSource

/-! ## sources/web_source.py -/

namespace WebSource

/-- A DuckDuckGo text-search hit; `Option` marks a possibly missing key. -/
structure TextHit where
  title : Option String := none
  body : Option String := none
  href : Option String := none
deriving Repr, DecidableEq

/-- A DuckDuckGo news hit. -/
structure NewsHit where
  title : Option String := none
  body : Option String := none
  url : Option String := none
  date : Option String := none
  source : Option String := none
deriving Repr, DecidableEq

/-- The per-hit loop of `search_web` (web_source.py lines 24-35). -/
def search_web_results (hits : List TextHit) : List ResearchResult :=
  hits.map fun hit =>
    { title := hit.title.getD "Untitled"
      abstract := hit.body.getD ""
      url := hit.href.getD ""
      published_date := ""
      source := "web"
      authors := [] }

/-- The per-hit loop of `search_news` (web_source.py lines 58-69). -/
def search_news_results (hits : List NewsHit) : List ResearchResult :=
  hits.map fun hit =>
    { title := hit.title.getD "Untitled"
      abstract := hit.body.getD ""
      url := hit.url.getD ""
      published_date := hit.date.getD ""
      source := "news"
      authors := [hit.source.getD "Unknown"] }

end WebSource

/-! ## sources/dblp_source.py -/

namespace DblpSource

/-- An element of a DBLP `author` array: an object (with its `text` field,
`""` when missing) or some non-object value, which the loop skips. -/
inductive AuthorItem where
  | dict (text : String)
  | nondict
deriving Repr, DecidableEq

/-- The value of `info.get("authors", {}).get("author", [])`: a single
author object, an array, or something else (missing key included), which
the `isinstance` normalization turns into `[]`. -/
inductive AuthorVal where
  | one (text : String)
  | many (items : List AuthorItem)
  | other
deriving Repr, DecidableEq

/-- The fields of a DBLP hit's `info` object that `search_papers` reads.
Plain `String` fields model `info.get(key, "")` (DBLP serves the year as a
string). -/
structure Info where
  title : Option String := none
  year : String := ""
  author : AuthorVal := .other
  doi : String := ""
  ee : String := ""
  url : String := ""
  venue : String := ""
  type : String := ""
  pages : String := ""
  access : String := ""
deriving Repr, DecidableEq

/-- Python string comparison `a < b` (lexicographic on code points). -/
def pyStrLt (a b : String) : Bool := decide (a < b)

/-- The two date-range `continue` filters of the loop (dblp_source.py lines
64-67): `if date_from and pub_date and pub_date < date_from` and
`if date_to and pub_date and pub_date > date_to`. -/
def date_skip (date_from date_to : Option String) (pub_date : String) : Bool :=
  ((date_from.getD "") ≠ "" && pub_date ≠ "" && pyStrLt pub_date (date_from.getD "")) ||
  ((date_to.getD "") ≠ "" && pub_date ≠ "" && pyStrLt (date_to.getD "") pub_date)

/-- The per-hit loop of `search_papers` (dblp_source.py lines 52-126),
applied to the parsed `hit` array and the optional date bounds. -/
def search_papers_results (date_from date_to : Option String)
    (hits : List Info) : List ResearchResult :=
  hits.filterMap fun info =>
    -- Skip if no title
    if info.title.getD "" = "" then none
    else
      let pub_date := if info.year ≠ "" then info.year ++ "-01-01" else ""
      -- Filter by date range if specified
      if date_skip date_from date_to pub_date then
        none
      else
        let authors_data : List AuthorItem :=
          match info.author with
          | .one t => [.dict t]
          | .many l => l
          | .other => []
        let authors := (authors_data.take 10).filterMap fun a =>
          match a with
          | .dict t => if t ≠ "" then some t else none
          | .nondict => none
        let url0 := info.doi
        let url1 :=
          if url0 ≠ "" && !(pyStartsWith url0 "http") then "https://doi.org/" ++ url0 else url0
        let url2 := if url1 = "" then info.ee else url1
        let url3 := if url2 = "" then info.url else url2
        let abstract_parts :=
          (if info.venue ≠ "" then ["Published in: " ++ info.venue] else []) ++
          (if info.type ≠ "" then ["Type: " ++ info.type] else []) ++
          (if info.pages ≠ "" then ["Pages: " ++ info.pages] else []) ++
          (if info.access ≠ "" then
            ["Access: " ++ (if info.access = "open" then "Open Access" else "Closed Access")]
          else [])
        let abstract :=
          if abstract_parts.isEmpty then "No abstract available"
          else pyJoin " | " abstract_parts
        some
          { title := info.title.getD ""
            abstract := abstract
            url := url3
            published_date := pub_date
            source := "dblp"
            authors := authors }

end DblpSource

/-! ## Shared LLM-reply JSON extraction

filter.py lines 100-105 and source_selector.py lines 136-140 perform the
same code-fence handling before `json.loads`. -/

/-- Strip the reply, and when it carries a ` ```json ` code fence cut the
text between the first `{` and the last `}` (Python `find`/`rfind` slicing,
including their `-1` behaviour when the braces are absent). -/
def extract_json_text (response_text : String) : String :=
  let t := pyStrip response_text
  if strContains t "```json" then
    let start := pyFind t "\x7b"
    let stop := pyRfind t "\x7d" + 1
    pySlice t start stop
  else t

/-! ## synthesis/filter.py -/

namespace Filter

/-- `_judge_relevance`, as a function of the outcome of `_call_ollama`
(exception message or reply text) and of `json.loads`.  The returned pair
carries the raw Python values `(judgment.get("relevant", False),
judgment.get("reason", "No reason provided"))`, so both components are
JSON values. -/
def judge_relevance (callOutcome : Except String String)
    (jsonLoads : String → Except Unit Json) : Json × Json :=
  match callOutcome with
  | .error e =>
    -- On error, default to keeping the result (conservative approach)
    (.bool true, .str ("Error: " ++ e))
  | .ok response_text =>
    let t := extract_json_text response_text
    match jsonLoads t with
    | .ok judgment =>
      match judgment with
      | .obj fields =>
        ((jsonLookup "relevant" fields).getD (.bool false),
         (jsonLookup "reason" fields).getD (.str "No reason provided"))
      | _ =>
        -- `.get` on a non-dict raises AttributeError, caught by the outer
        -- `except Exception` handler of `_judge_relevance`
        (.bool true, .str "Error: AttributeError: object has no attribute get")
    | .error _ =>
      -- Fallback: look for true/false keywords
      let lower := pyLower t
      if strContains lower "true" || strContains lower "\"relevant\": true" then
        (.bool true, .str "Keyword match fallback")
      else
        (.bool false, .str "Keyword match fallback")

/-- The statistics dict returned by `filter_relevant_results`. -/
structure FilterStats where
  total : Nat
  relevant : Nat
  filtered_out : Nat
deriving Repr, DecidableEq

/-- The judging loop of `filter_relevant_results` (filter.py lines 36-47):
kept results in order, and the `filtered_out` counter. -/
def filterLoop (judge : ResearchResult → Json × Json) :
    List ResearchResult → List ResearchResult × Nat
  | [] => ([], 0)
  | r :: rest =>
    let tail := filterLoop judge rest
    if pyTruthy (judge r).1 then (r :: tail.1, tail.2) else (tail.1, tail.2 + 1)

/-- `filter_relevant_results`, as a function of the per-result judgment
`judge topic result` (modelling `_judge_relevance(query.topic, result)`
together with its call and parse outcomes). -/
def filter_relevant_results (judge : String → ResearchResult → Json × Json)
    (query : ResearchQuery) (results : List ResearchResult) :
    List ResearchResult × FilterStats :=
  if results.isEmpty then ([], ⟨0, 0, 0⟩)
  else
    let looped := filterLoop (judge query.topic) results
    (looped.1, ⟨results.length, looped.1.length, looped.2⟩)

end Filter

/-! ## synthesis/source_selector.py -/

namespace SourceSelector

/-- The post-parse validation of `select_sources` (source_selector.py lines
143-147): read `selected` and `reasoning` with dict defaults, then keep the
selected names that occur in the candidate list.  Any Python exception in
these statements (non-dict reply, non-iterable `selected`) escapes to the
outer `except Exception` handler, modelled by the `Except` error. -/
def validate_selection (available_sources : List String) (result : Json) :
    Except String (List String × Json) := do
  let selected ← result.objGetD "selected" (.arr [])
  let reasoning ← result.objGetD "reasoning" (.obj [])
  let items ← pyIter selected
  let validated := items.filterMap fun v =>
    match v with
    | .str s => if s ∈ available_sources then some s else none
    | _ => none
  pure (validated, reasoning)

/-- `select_sources`, as a function of the outcome of `_call_ollama` and of
`json.loads`.  Returns the selected source names and the reasoning value. -/
def select_sources (available_sources : List String)
    (callOutcome : Except String String)
    (jsonLoads : String → Except Unit Json) : List String × Json :=
  if available_sources.isEmpty then ([], .obj [])
  else
    match callOutcome with
    | .error e => (available_sources, .obj [("error", .str e)])
    | .ok response_text =>
      match jsonLoads (extract_json_text response_text) with
      | .error _ => (available_sources, .obj [("error", .str "JSON parse failed")])
      | .ok result =>
        match validate_selection available_sources result with
        | .error e => (available_sources, .obj [("error", .str e)])
        | .ok (validated, reasoning) =>
          -- Ensure at least 3 sources
          if validated.length < 3 ∧ 3 ≤ available_sources.length then
            (available_sources, .obj [("fallback", .str "LLM selected too few sources")])
          else
            (validated, reasoning)

end SourceSelector

/-! ## synthesis/analyzer.py -/

namespace Analyzer

/-- The structured output of `analyze_research` / `_parse_response`. -/
structure Analysis where
  summary : String
  insights : List String
deriving Repr, DecidableEq

/-- The character set of `line.lstrip("•-*123456789. ")` (note: no `0`). -/
def markerChars : List Char :=
  ['•', '-', '*', '1', '2', '3', '4', '5', '6', '7', '8', '9', '.', ' ']

/-- The section state of the structured parsing pass. -/
inductive Sect where
  | summary
  | insights
deriving Repr, DecidableEq

/-- The structured (tier-1) line scan of `_parse_response` (analyzer.py
lines 123-148), returning the summary and insight buffers. -/
def parse_lines : List String → Option Sect → List String → List String →
    List String × List String
  | [], _, summary_lines, insights => (summary_lines, insights)
  | l :: rest, current_section, summary_lines, insights =>
    let line := pyStrip l
    -- Detect section headers
    if strContains (pyLower line) "executive summary" || strContains (pyLower line) "summary" then
      parse_lines rest (some .summary) summary_lines insights
    else if strContains (pyLower line) "key insights" || strContains (pyLower line) "insights" then
      parse_lines rest (some .insights) summary_lines insights
    else if strContains (pyLower line) "notable findings" then
      parse_lines rest (some .insights) summary_lines insights
    -- Skip empty lines and headers
    else if line = "" || pyStartsWith line "#" then
      parse_lines rest current_section summary_lines insights
    else
      match current_section with
      | some .summary => parse_lines rest current_section (summary_lines ++ [line]) insights
      | some .insights =>
        -- Remove bullet points and numbering
        let cleaned := pyLstrip markerChars line
        if cleaned ≠ "" ∧ cleaned.length > 10 then
          parse_lines rest current_section summary_lines (insights ++ [cleaned])
        else
          parse_lines rest current_section summary_lines insights
      | none => parse_lines rest current_section summary_lines insights

/-- The tier-2 fallback of `_parse_response` (analyzer.py lines 151-162):
first paragraph as summary, longer marker-stripped lines of the remaining
paragraphs as insights. -/
def fallback_parse (response_text : String) : List String × List String :=
  let paragraphs := ((pySplit response_text "\n\n").map pyStrip).filter (fun p => p ≠ "")
  match paragraphs with
  | [] => ([], [])
  | p0 :: rest =>
    let insights := rest.foldl (fun acc para =>
      (pySplit para "\n").foldl (fun acc2 line =>
        let cleaned := pyLstrip markerChars (pyStrip line)
        if cleaned ≠ "" ∧ cleaned.length > 20 then acc2 ++ [cleaned] else acc2) acc) []
    ([p0], insights)

/-- `_parse_response`: two-tier parsing of the model's free-form reply. -/
def parse_response (response_text : String) : Analysis :=
  let lines := pySplit response_text "\n"
  let buffers := parse_lines lines none [] []
  -- Enhanced fallback logic if parsing failed
  let buffers :=
    if buffers.1.isEmpty ∧ buffers.2.isEmpty then fallback_parse response_text
    else buffers
  -- Build final output
  let summary :=
    if buffers.1.isEmpty then pySlice response_text 0 800 ++ "..."
    else pyJoin " " buffers.1
  let insights :=
    if buffers.2.isEmpty then ["Analysis provided in summary"] else buffers.2
  ⟨summary, insights.take 10⟩  -- Limit to 10 insights

/-- `analyze_research`, as a function of the outcome of `_call_ollama`.
With no results it short-circuits to a fixed answer; otherwise the call's
exception is wrapped and re-raised, and its reply is parsed. -/
def analyze_research (query : ResearchQuery) (results : List ResearchResult)
    (callOutcome : Except String String) : Except String Analysis :=
  if results.isEmpty then
    .ok ⟨"No research results found for the topic: " ++ query.topic,
         ["No data available for analysis"]⟩
  else
    match callOutcome with
    | .ok response_text => .ok (parse_response response_text)
    | .error e => .error ("Failed to analyze research with LLM: " ++ e)

end Analyzer

/-! ## Spec predicates -/

/-- The fixed-width zero-padded `YYYY-MM-DD` pattern named by the spec. -/
def isYYYYMMDD (s : String) : Bool :=
  match s.data with
  | [y1, y2, y3, y4, h1, m1, m2, h2, d1, d2] =>
    y1.isDigit && y2.isDigit && y3.isDigit && y4.isDigit && h1 == '-' &&
    m1.isDigit && m2.isDigit && h2 == '-' && d1.isDigit && d2.isDigit
  | _ => false

/-! ## Helper lemmas -/

theorem listIsPre_extend (xs : List Char) : ∀ ys zs : List Char,
    listIsPre xs ys = true → listIsPre xs (ys ++ zs) = true := by
  induction xs with
  | nil => intro ys zs _; rfl
  | cons a as ih =>
    intro ys zs h
    cases ys with
    | nil => simp [listIsPre] at h
    | cons b bs =>
      simp only [listIsPre, Bool.and_eq_true] at h
      simp only [List.cons_append, listIsPre, Bool.and_eq_true]
      exact ⟨h.1, ih bs zs h.2⟩

theorem strContainsAux_of_isPre (n l : List Char) (h : listIsPre n l = true) :
    strContainsAux n l = true := by
  cases l with
  | nil =>
    cases n with
    | nil => rfl
    | cons c cs => simp [listIsPre] at h
  | cons c cs => simp [strContainsAux, h]

theorem strContains_append_left (h₁ h₂ n : String)
    (hp : listIsPre n.data h₁.data = true) : strContains (h₁ ++ h₂) n = true := by
  unfold strContains
  rw [String.data_append]
  exact strContainsAux_of_isPre _ _ (listIsPre_extend _ _ _ hp)

theorem filterLoop_length (judge : ResearchResult → Json × Json) (l : List ResearchResult) :
    (Filter.filterLoop judge l).1.length + (Filter.filterLoop judge l).2 = l.length := by
  induction l with
  | nil => simp [Filter.filterLoop]
  | cons r rest ih =>
    simp only [Filter.filterLoop]
    cases hb : pyTruthy (judge r).1 <;> simp [hb, List.length_cons] <;> omega

/-! ## Claims -/

/-- C4: `_extract_abstract` is a pure function of the inverted index alone:
the five-word example reconstructs to exactly "This is a test abstract",
`None` and `{}` give `""`, and a word occurring at several positions is
emitted in position order, not first-occurrence order. -/
theorem C4_extract_abstract :
    OpenalexSource.extract_abstract
        (some [("This", [0]), ("is", [1]), ("a", [2]), ("test", [3]), ("abstract", [4])]) =
      "This is a test abstract" ∧
    OpenalexSource.extract_abstract none = "" ∧
    OpenalexSource.extract_abstract (some []) = "" ∧
    OpenalexSource.extract_abstract (some [("The", [0, 3]), ("cat", [1]), ("sat", [2])]) =
      "The cat sat The" := by
  refine ⟨?_, ?_, ?_, ?_⟩ <;> rfl

/-- C6: whenever the relevance-judgment call itself raises, `_judge_relevance`
returns `is_relevant == True` with a reason carrying the "Error:" marker, so
the result is kept. -/
theorem C6_exception_keeps (e : String) (jsonLoads : String → Except Unit Json) :
    Filter.judge_relevance (.error e) jsonLoads = (.bool true, .str ("Error: " ++ e)) ∧
    pyTruthy (Filter.judge_relevance (.error e) jsonLoads).1 = true ∧
    strContains ("Error: " ++ e) "Error:" = true := by
  refine ⟨rfl, rfl, ?_⟩
  exact strContains_append_left "Error: " e "Error:" (by decide)

/-- C2: `filter_relevant_results` always returns statistics with
`relevant + filtered_out = total`, `total` the input length and `relevant`
the length of the returned list, whatever each judgment resolves to. -/
theorem C2_filter_stats (judge : String → ResearchResult → Json × Json)
    (query : ResearchQuery) (results : List ResearchResult) :
    (Filter.filter_relevant_results judge query results).2.relevant +
        (Filter.filter_relevant_results judge query results).2.filtered_out =
      (Filter.filter_relevant_results judge query results).2.total ∧
    (Filter.filter_relevant_results judge query results).2.total = results.length ∧
    (Filter.filter_relevant_results judge query results).2.relevant =
      (Filter.filter_relevant_results judge query results).1.length := by
  cases results with
  | nil => exact ⟨rfl, rfl, rfl⟩
  | cons a l =>
    have he : (a :: l).isEmpty = false := rfl
    simp only [Filter.filter_relevant_results, he, Bool.false_eq_true, if_false]
    exact ⟨filterLoop_length (judge query.topic) (a :: l), by trivial, by trivial⟩

/-- C9: on an empty result list `analyze_research` short-circuits — for every
call outcome it returns the same fixed answer, whose summary contains
"No research results found" and whose insights list is the one-element
no-data marker. -/
theorem C9_empty_results (query : ResearchQuery) (callOutcome : Except String String) :
    Analyzer.analyze_research query [] callOutcome =
      .ok ⟨"No research results found for the topic: " ++ query.topic,
           ["No data available for analysis"]⟩ ∧
    strContains ("No research results found for the topic: " ++ query.topic)
      "No research results found" = true := by
  refine ⟨rfl, ?_⟩
  exact strContains_append_left "No research results found for the topic: " query.topic
    "No research results found" (by decide)

/-- C8 counterexample: `ResearchQuery` does not clamp `max_results` — a
requested value of 200 (or 0) is rejected by the pydantic range validation
instead of being stored as a value between 1 and 100. -/
theorem C8_cex :
    ResearchQuery.validate "quantum computing" none none none 200 =
      .error "ValidationError: max_results: Input should be less than or equal to 100" ∧
    ResearchQuery.validate "quantum computing" none none none 0 =
      .error "ValidationError: max_results: Input should be greater than or equal to 1" :=
  ⟨rfl, rfl⟩

/-- C8 (amended): `max_results` defaults to 10 and is validated to the range
1–100 — an out-of-range request fails construction, and every successfully
constructed `ResearchQuery` stores the requested value, which lies between
1 and 100 inclusive. -/
theorem C8_bounds :
    (∀ (topic : String) (sq df dt : Option String) (m : Int) (q : ResearchQuery),
      ResearchQuery.validate topic sq df dt m = .ok q →
        1 ≤ q.max_results ∧ q.max_results ≤ 100 ∧ q.max_results = m) ∧
    (∀ topic : String, ({ topic := topic } : ResearchQuery).max_results = 10) := by
  constructor
  · intro topic sq df dt m q h
    unfold ResearchQuery.validate at h
    by_cases h1 : m < 1
    · simp [h1] at h
    · by_cases h2 : 100 < m
      · simp [h1, h2] at h
      · simp only [h1, h2, if_false] at h
        cases h
        exact ⟨(by omega : (1 : Int) ≤ m), (by omega : (m : Int) ≤ 100), rfl⟩
  · intro topic
    rfl

/-- C8 witness: the theorem applied at the concrete request 10. -/
theorem C8_bounds_witness :
    1 ≤ (⟨"ml", none, none, none, 10⟩ : ResearchQuery).max_results ∧
    (⟨"ml", none, none, none, 10⟩ : ResearchQuery).max_results ≤ 100 ∧
    (⟨"ml", none, none, none, 10⟩ : ResearchQuery).max_results = 10 :=
  C8_bounds.1 "ml" none none none 10 ⟨"ml", none, none, none, 10⟩ rfl

/-- C10 counterexample: a reply parsing to a JSON object that lacks
"relevant" but carries a "reason" makes `_judge_relevance` return that
reason, not "No reason provided". -/
theorem C10_cex :
    Filter.judge_relevance (.ok "x")
        (fun _ => .ok (.obj [("reason", Json.str "off topic")])) =
      (Json.bool false, Json.str "off topic") ∧
    Json.str "off topic" ≠ Json.str "No reason provided" := by
  refine ⟨rfl, ?_⟩
  intro h
  injection h with h2
  exact absurd h2 (by decide)

/-- C10 (amended): when the reply parses to a JSON object without the
"relevant" key, `_judge_relevance` returns `is_relevant == False` — filtering
the result out — with the reason defaulting to "No reason provided" when the
"reason" key is also absent, and the object's own reason otherwise. -/
theorem C10_missing_relevant (response_text : String)
    (fields : List (String × Json)) (jsonLoads : String → Except Unit Json)
    (hparse : jsonLoads (extract_json_text response_text) = .ok (.obj fields))
    (hrel : jsonLookup "relevant" fields = none) :
    (Filter.judge_relevance (.ok response_text) jsonLoads).1 = .bool false ∧
    (jsonLookup "reason" fields = none →
      (Filter.judge_relevance (.ok response_text) jsonLoads).2 = .str "No reason provided") ∧
    (∀ v, jsonLookup "reason" fields = some v →
      (Filter.judge_relevance (.ok response_text) jsonLoads).2 = v) := by
  simp only [Filter.judge_relevance, hparse, hrel, Option.getD_none]
  refine ⟨by trivial, ?_, ?_⟩
  · intro hr; simp [hr]
  · intro v hr; simp [hr]

/-- C10 witness: the theorem applied to a reply parsing to the empty object. -/
theorem C10_missing_relevant_witness :
    (Filter.judge_relevance (.ok "x") (fun _ => .ok (.obj []))).1 = .bool false ∧
    (Filter.judge_relevance (.ok "x") (fun _ => .ok (.obj []))).2 = .str "No reason provided" := by
  have h := C10_missing_relevant "x" [] (fun _ => .ok (.obj [])) rfl rfl
  exact ⟨h.1, h.2.1 rfl⟩

/-- C5: for every model reply the analyzer's parser returns between 1 and 10
insights — short numbered lines are excluded, 15 qualifying numbered lines
are capped at exactly the first 10, and when no insight survives the single
placeholder "Analysis provided in summary" is substituted. -/
theorem C5_insights_contract :
    (∀ response_text : String,
      1 ≤ (Analyzer.parse_response response_text).insights.length ∧
      (Analyzer.parse_response response_text).insights.length ≤ 10) ∧
    (Analyzer.parse_response
        ("Key Insights\n1. finding item alpha\n2. finding item beta\n3. finding item gamma\n" ++
         "4. finding item delta\n5. finding item epsil\n6. finding item zetaa\n" ++
         "7. finding item etaaa\n8. finding item theta\n9. finding item iotaa\n" ++
         "10. finding item kappa\n11. finding item lambd\n12. finding item muuuu\n" ++
         "13. finding item nuuuu\n14. finding item xiiii\n15. finding item omicr")).insights.length
      = 10 ∧
    (Analyzer.parse_response "Insights\n1. tiny\n2. ok").insights =
      ["Analysis provided in summary"] := by
  refine ⟨?_, by decide, by decide⟩
  intro response_text
  have key : ∀ ins : List String,
      1 ≤ ((if ins.isEmpty then ["Analysis provided in summary"] else ins).take 10).length ∧
      ((if ins.isEmpty then ["Analysis provided in summary"] else ins).take 10).length ≤ 10 := by
    intro ins
    cases ins with
    | nil => simp
    | cons a l =>
      refine ⟨?_, ?_⟩ <;> simp [List.length_take]
  exact key _

/-- A 4-digit year followed by "-01-01" matches the `YYYY-MM-DD` pattern. -/
theorem isYYYYMMDD_year_append (y : String) (hlen : y.data.length = 4)
    (hdig : y.data.all Char.isDigit = true) : isYYYYMMDD (y ++ "-01-01") = true := by
  obtain ⟨l⟩ := y
  match l, hlen, hdig with
  | [a, b, c, d], _, hdig =>
    have hd : (String.mk [a, b, c, d] ++ "-01-01").data =
        [a, b, c, d, '-', '0', '1', '-', '0', '1'] := rfl
    simp only [List.all_cons, List.all_nil, Bool.and_eq_true, Bool.and_true] at hdig
    simp [isYYYYMMDD, hd, hdig.1, hdig.2.1, hdig.2.2.1, hdig.2.2.2]

/-- C1 counterexample: the web adapter does not skip a falsy-title record —
a hit whose title field is the empty string yields a `ResearchResult` with
an empty title in the returned list. -/
theorem C1_cex :
    (WebSource.search_web_results [{ title := some "" }]).map ResearchResult.title = [""] ∧
    ∃ r ∈ WebSource.search_web_results [{ title := some "" }], r.title = "" :=
  ⟨rfl, ⟨"", "", "", "", "web", []⟩, by decide, rfl⟩

/-- C1 (amended): the openalex adapter skips records with a missing or empty
title, so none of its returned results has an empty title; the web/news
adapter does not skip — it substitutes "Untitled" only when the title key is
missing and passes a present-but-empty title through unchanged. -/
theorem C1_title_policy :
    (∀ (works : List OpenalexSource.Work) (r : ResearchResult),
        r ∈ OpenalexSource.search_papers_results works → r.title ≠ "") ∧
    (∀ hits : List WebSource.TextHit,
        (WebSource.search_web_results hits).map ResearchResult.title =
          hits.map (fun h => h.title.getD "Untitled")) ∧
    (∀ hits : List WebSource.NewsHit,
        (WebSource.search_news_results hits).map ResearchResult.title =
          hits.map (fun h => h.title.getD "Untitled")) := by
  refine ⟨?_, ?_, ?_⟩
  · intro works r hr
    simp only [OpenalexSource.search_papers_results, List.mem_filterMap] at hr
    obtain ⟨w, _, hfw⟩ := hr
    by_cases ht : w.title.getD "" = ""
    · simp [ht] at hfw
    · simp only [ht, if_false] at hfw
      cases hfw
      simpa using ht
  · intro hits
    simp [WebSource.search_web_results, List.map_map, Function.comp]
  · intro hits
    simp [WebSource.search_news_results, List.map_map, Function.comp]

/-- C1 witness: the amended theorem applied to a one-work OpenAlex response. -/
theorem C1_title_policy_witness :
    (⟨"Quantum", "No abstract available", "", "", "openalex", []⟩ : ResearchResult).title ≠ "" :=
  C1_title_policy.1 [{ title := some "Quantum" }] _ (by decide)

/-- C7 counterexample: the news adapter passes the provider's date string
through verbatim, so a provider date that is not in `YYYY-MM-DD` form
appears unchanged — non-empty and not matching the pattern. -/
theorem C7_cex :
    (WebSource.search_news_results
        [{ title := some "AI Startup Raises Funding", date := some "June 15, 2024" }]).map
      ResearchResult.published_date = ["June 15, 2024"] ∧
    ("June 15, 2024" : String) ≠ "" ∧
    isYYYYMMDD "June 15, 2024" = false :=
  ⟨rfl, by decide, by decide⟩

/-- C7 (amended): `search_web` always emits an empty published date; the news
adapter copies the provider's date string verbatim (so the `YYYY-MM-DD`
pattern holds only when the provider supplies it); the dblp adapter emits
either the empty string or the provider's year string with "-01-01" appended,
which matches the fixed-width pattern whenever that year is a 4-digit
number. -/
theorem C7_date_policy :
    (∀ (hits : List WebSource.TextHit) (r : ResearchResult),
        r ∈ WebSource.search_web_results hits → r.published_date = "") ∧
    (∀ (hits : List WebSource.NewsHit) (r : ResearchResult),
        r ∈ WebSource.search_news_results hits →
          ∃ h ∈ hits, r.published_date = h.date.getD "") ∧
    (∀ (date_from date_to : Option String) (infos : List DblpSource.Info)
        (r : ResearchResult),
        r ∈ DblpSource.search_papers_results date_from date_to infos →
          r.published_date = "" ∨
            ∃ info ∈ infos, info.year ≠ "" ∧ r.published_date = info.year ++ "-01-01") ∧
    (∀ (date_from date_to : Option String) (infos : List DblpSource.Info),
        (∀ info ∈ infos, info.year = "" ∨
            (info.year.data.length = 4 ∧ info.year.data.all Char.isDigit = true)) →
        ∀ r ∈ DblpSource.search_papers_results date_from date_to infos,
          r.published_date = "" ∨ isYYYYMMDD r.published_date = true) := by
  have hdblp : ∀ (date_from date_to : Option String) (infos : List DblpSource.Info)
      (r : ResearchResult),
      r ∈ DblpSource.search_papers_results date_from date_to infos →
        r.published_date = "" ∨
          ∃ info ∈ infos, info.year ≠ "" ∧ r.published_date = info.year ++ "-01-01" := by
    intro date_from date_to infos r hr
    simp only [DblpSource.search_papers_results, List.mem_filterMap] at hr
    obtain ⟨info, hinfo, hf⟩ := hr
    by_cases ht : info.title.getD "" = ""
    · simp [ht] at hf
    · rw [if_neg ht] at hf
      simp at hf
      obtain ⟨-, hrec⟩ := hf
      by_cases hy : info.year = ""
      · left
        rw [← hrec]
        simp [hy]
      · right
        refine ⟨info, hinfo, hy, ?_⟩
        rw [← hrec]
        simp [hy]
  refine ⟨?_, ?_, hdblp, ?_⟩
  · intro hits r hr
    simp only [WebSource.search_web_results, List.mem_map] at hr
    obtain ⟨h, _, hfh⟩ := hr
    cases hfh
    rfl
  · intro hits r hr
    simp only [WebSource.search_news_results, List.mem_map] at hr
    obtain ⟨h, hh, hfh⟩ := hr
    cases hfh
    exact ⟨h, hh, rfl⟩
  · intro date_from date_to infos hyears r hr
    rcases hdblp date_from date_to infos r hr with hempty | ⟨info, hinfo, hy, hpd⟩
    · exact Or.inl hempty
    · rcases hyears info hinfo with h0 | ⟨hlen, hdig⟩
      · exact absurd h0 hy
      · exact Or.inr (hpd ▸ isYYYYMMDD_year_append info.year hlen hdig)

/-- C7 witness: the amended theorem applied to concrete web and dblp
responses. -/
theorem C7_date_policy_witness :
    (⟨"Untitled", "", "", "", "web", []⟩ : ResearchResult).published_date = "" ∧
    ((⟨"P", "No abstract available", "", "2023-01-01", "dblp", []⟩ :
        ResearchResult).published_date = "" ∨
      isYYYYMMDD (⟨"P", "No abstract available", "", "2023-01-01", "dblp", []⟩ :
        ResearchResult).published_date = true) := by
  constructor
  · exact C7_date_policy.1 [{}] _ (by decide)
  · exact C7_date_policy.2.2.2 none none [{ title := some "P", year := "2023" }]
      (by decide) _ (by decide)

/-- Every name kept by `validate_selection` comes from the candidate list. -/
theorem validate_selection_subset (available_sources : List String) (result : Json)
    (validated : List String) (reasoning : Json)
    (h : SourceSelector.validate_selection available_sources result =
      .ok (validated, reasoning)) :
    ∀ s ∈ validated, s ∈ available_sources := by
  unfold SourceSelector.validate_selection at h
  cases h1 : result.objGetD "selected" (.arr []) with
  | error e => simp [h1, bind, Except.bind] at h
  | ok selected =>
    cases h2 : result.objGetD "reasoning" (.obj []) with
    | error e => simp [h1, h2, bind, Except.bind] at h
    | ok reas =>
      cases h3 : pyIter selected with
      | error e => simp [h1, h2, h3, bind, Except.bind, Functor.map, Except.map] at h
      | ok items =>
        simp only [h1, h2, h3, bind, Except.bind, Functor.map, Except.map, pure, Except.pure,
          Except.ok.injEq, Prod.mk.injEq] at h
        intro s hs
        rw [← h.1] at hs
        simp only [List.mem_filterMap] at hs
        obtain ⟨v, hvmem, hv⟩ := hs
        cases v with
        | null => simp at hv
        | bool b => simp at hv
        | num n => simp at hv
        | arr l => simp at hv
        | obj l => simp at hv
        | str s2 =>
          by_cases hmem : s2 ∈ available_sources
          · simp only [hmem, if_true, if_pos, Option.some.injEq] at hv
            exact hv ▸ hmem
          · simp [hmem] at hv

/-- C3 counterexample: with only two candidate sources, a model selection of
a single valid name is returned as-is — `select_sources` does not fall back
to the full candidate list even though the selection is below the minimum
threshold of 3. -/
theorem C3_cex :
    SourceSelector.select_sources ["arxiv", "web"] (.ok "x")
        (fun _ => .ok (.obj [("selected", .arr [.str "arxiv"]), ("reasoning", .obj [])])) =
      (["arxiv"], .obj []) ∧
    (["arxiv"] : List String) ≠ ["arxiv", "web"] ∧
    (["arxiv"] : List String).length < 3 :=
  ⟨rfl, by decide, by decide⟩

/-- C3 (amended): when the model call raises or its reply fails to parse,
`select_sources` returns the full candidate list with an "error" reasoning
entry; when the validated selection is below the minimum threshold of 3 and
at least 3 candidates are available, it returns the full candidate list with
a "fallback" entry; with fewer than 3 candidates an under-threshold selection
is returned as-is, and whenever at least 3 candidates exist the returned list
is either the full candidate list or at least 3 validated names drawn from
it. -/
theorem C3_selector_fallback (available_sources : List String)
    (callOutcome : Except String String) (jsonLoads : String → Except Unit Json)
    (hne : available_sources ≠ []) :
    (∀ e, callOutcome = .error e →
      SourceSelector.select_sources available_sources callOutcome jsonLoads =
        (available_sources, .obj [("error", .str e)])) ∧
    (∀ t, callOutcome = .ok t → jsonLoads (extract_json_text t) = .error () →
      SourceSelector.select_sources available_sources callOutcome jsonLoads =
        (available_sources, .obj [("error", .str "JSON parse failed")])) ∧
    (∀ t result validated reasoning, callOutcome = .ok t →
      jsonLoads (extract_json_text t) = .ok result →
      SourceSelector.validate_selection available_sources result =
        .ok (validated, reasoning) →
      validated.length < 3 → 3 ≤ available_sources.length →
      SourceSelector.select_sources available_sources callOutcome jsonLoads =
        (available_sources, .obj [("fallback", .str "LLM selected too few sources")])) ∧
    (3 ≤ available_sources.length →
      (SourceSelector.select_sources available_sources callOutcome jsonLoads).1 =
          available_sources ∨
        (3 ≤ (SourceSelector.select_sources available_sources callOutcome jsonLoads).1.length ∧
          ∀ s ∈ (SourceSelector.select_sources available_sources callOutcome jsonLoads).1,
            s ∈ available_sources)) := by
  have hemp : available_sources.isEmpty = false := by
    cases available_sources with
    | nil => exact absurd rfl hne
    | cons a l => rfl
  refine ⟨?_, ?_, ?_, ?_⟩
  · intro e he
    subst he
    simp [SourceSelector.select_sources, hemp]
  · intro t ht hparse
    subst ht
    simp [SourceSelector.select_sources, hemp, hparse]
  · intro t result validated reasoning ht hparse hval hlt hge
    subst ht
    simp [SourceSelector.select_sources, hemp, hparse, hval, hlt, hge]
  · intro hge
    cases callOutcome with
    | error e =>
      left
      simp [SourceSelector.select_sources, hemp]
    | ok t =>
      cases hparse : jsonLoads (extract_json_text t) with
      | error u =>
        left
        simp [SourceSelector.select_sources, hemp, hparse]
      | ok result =>
        cases hval : SourceSelector.validate_selection available_sources result with
        | error e =>
          left
          simp [SourceSelector.select_sources, hemp, hparse, hval]
        | ok vr =>
          obtain ⟨validated, reasoning⟩ := vr
          have hsel :
              ¬ validated.length < 3 →
              (SourceSelector.select_sources available_sources (.ok t) jsonLoads).1 =
                validated := by
            intro hlt
            simp [SourceSelector.select_sources, hemp, hparse, hval, hlt]
          by_cases hlt : validated.length < 3
          · left
            simp [SourceSelector.select_sources, hemp, hparse, hval, hlt, hge]
          · right
            constructor
            · rw [hsel hlt]
              omega
            · intro s hs
              rw [hsel hlt] at hs
              exact validate_selection_subset available_sources result validated reasoning
                hval s hs

/-- C3 witness: the amended theorem applied to a failing call over three
candidates, and to an under-threshold selection over three candidates. -/
theorem C3_selector_fallback_witness :
    SourceSelector.select_sources ["arxiv", "web", "news"] (.error "boom")
        (fun _ => .error ()) =
      (["arxiv", "web", "news"], .obj [("error", .str "boom")]) ∧
    SourceSelector.select_sources ["arxiv", "web", "news"] (.ok "x")
        (fun _ => .ok (.obj [("selected", .arr [.str "arxiv"]), ("reasoning", .obj [])])) =
      (["arxiv", "web", "news"], .obj [("fallback", .str "LLM selected too few sources")]) :=
  ⟨(C3_selector_fallback ["arxiv", "web", "news"] (.error "boom") (fun _ => .error ())
      (by decide)).1 "boom" rfl,
   (C3_selector_fallback ["arxiv", "web", "news"] (.ok "x")
      (fun _ => .ok (.obj [("selected", .arr [.str "arxiv"]), ("reasoning", .obj [])]))
      (by decide)).2.2.1 "x"
      (.obj [("selected", .arr [.str "arxiv"]), ("reasoning", .obj [])])
      ["arxiv"] (.obj []) rfl rfl rfl (by decide) (by decide)⟩
